import Mathlib

/-!
Verification of the mover node of PiDeCAF (au_uav_ros), a shallow embedding of
src/au_uav_ros/src/mover.cpp.

The node arbitrates between an operator goal waypoint (goal_wp) and a
collision-avoidance waypoint queue (ca_wp), under a three-state mode machine
(ST_RED halted, ST_GREEN_CA_OFF direct goal, ST_GREEN_CA_ON avoidance guided).
Doubles are modelled as rationals; the C cast (int)d is modelled as truncation
toward zero.

Locks in the source guard individual fields; each callback and each publish
tick is embedded as a sequential state-transformer, which is faithful for the
per-handler and per-tick properties proved here.
-/

/-- Modelled from the spec: the numeric sentinel constants
(INVALID_GPS_COOR, EMERGENCY_PROTOCOL_LAT, META_START_CA_ON_LON,
META_STOP_LON, META_START_CA_OFF_LON) are defined in a header that is not
part of the given sources; they are kept abstract as a parameter record.
The three meta longitude codes form a small closed set of distinct codes
(distinctness is forced in the source, where they are case labels of one
C switch statement). -/
structure SentinelConsts where
  INVALID_GPS_COOR : ℚ
  EMERGENCY_PROTOCOL_LAT : ℚ
  META_START_CA_ON_LON : ℤ
  META_STOP_LON : ℤ
  META_START_CA_OFF_LON : ℤ
deriving DecidableEq

/-- The three meta longitude codes are pairwise distinct (in the source they
are case labels of a single switch, so C forbids duplicates). -/
def SentinelConsts.distinctCodes (k : SentinelConsts) : Prop :=
  k.META_START_CA_ON_LON ≠ k.META_STOP_LON ∧
  k.META_START_CA_ON_LON ≠ k.META_START_CA_OFF_LON ∧
  k.META_STOP_LON ≠ k.META_START_CA_OFF_LON

instance (k : SentinelConsts) : Decidable k.distinctCodes := by
  unfold SentinelConsts.distinctCodes; infer_instance

/-- au_uav_ros::Command message: plane id, position, numeric parameter and
command kind identifier. -/
structure Command where
  planeID : ℤ
  latitude : ℚ
  longitude : ℚ
  altitude : ℚ
  param : ℚ
  commandID : ℤ
deriving DecidableEq

/-- au_uav_ros::Telemetry message: a vehicle state report, consumed only by
the avoidance function. -/
structure Telemetry where
  planeID : ℤ
  latitude : ℚ
  longitude : ℚ
  altitude : ℚ
deriving DecidableEq

/-- enum state of the Mover node. -/
inductive MoverMode where
  | ST_RED
  | ST_GREEN_CA_OFF
  | ST_GREEN_CA_ON
deriving DecidableEq

open MoverMode

/-- The mutable fields of au_uav_ros::Mover (mover.h is not among the given
sources; the fields are exactly those assigned in mover.cpp).  caGoal and
caInitID model the externally visible calls into the opaque avoidance object
ca (ca.setGoalWaypoint and ca.init). -/
structure MoverState where
  planeID : ℤ
  goal_wp : Command
  ca_wp : List Command
  current_state : MoverMode
  is_testing : Bool
  initialLat : ℚ
  initialLong : ℚ
  initialAlt : ℚ
  caGoal : Option Command
  caInitID : Option ℤ
deriving DecidableEq

/-- The C cast (int)d for doubles: truncation toward zero.  On a rational
num/den this is T-division of the numerator by the denominator. -/
def truncToInt (q : ℚ) : ℤ :=
  q.num.tdiv (q.den : ℤ)

/-- std::list::clear on ca_wp. -/
def listClear (_ : List Command) : List Command := []

/-- std::list::push_back on ca_wp. -/
def listPushBack (l : List Command) (c : Command) : List Command := l ++ [c]

/-- The avoidance-queue update of all_telem_callback (mover.cpp lines 41-45):
clear the queue, then push the fresh command, under ca_wp_lock.  This is the
operation the spec calls pushAvoidance. -/
def pushAvoidance (q : List Command) (c : Command) : List Command :=
  listPushBack (listClear q) c

/-- The avoidance-queue read of caCommandPublish (mover.cpp lines 210-217):
check emptiness; if nonempty take the front and pop it.  This is the
operation the spec calls popAvoidance. -/
def popAvoidance (q : List Command) : Option Command × List Command :=
  match q with
  | [] => (none, [])
  | c :: rest => (some c, rest)

/-- Mover::all_telem_callback (mover.cpp lines 24-46): compute the candidate
command (ca.avoid on the telemetry, or goal_wp in test mode), drop it if it
is the invalid-position sentinel, otherwise replace the queue contents with
it.  The opaque avoidance algorithm is passed as the function avoid. -/
def all_telem_callback (k : SentinelConsts) (avoid : Telemetry → Command)
    (s : MoverState) (telem : Telemetry) : MoverState :=
  let com : Command := if !s.is_testing then avoid telem else s.goal_wp
  if com.latitude = k.INVALID_GPS_COOR ∧ com.longitude = k.INVALID_GPS_COOR ∧
     com.altitude = k.INVALID_GPS_COOR then
    s
  else
    { s with ca_wp := pushAvoidance s.ca_wp com }

/-- Mover::gcs_command_callback (mover.cpp lines 53-97): ignore commands for
other planes; on the emergency latitude sentinel, switch the mode according
to the (int)longitude meta code; otherwise store the command as the new goal
waypoint and forward it to ca.setGoalWaypoint. -/
def gcs_command_callback (k : SentinelConsts) (s : MoverState)
    (com : Command) : MoverState :=
  if s.planeID = com.planeID then
    if com.latitude = k.EMERGENCY_PROTOCOL_LAT then
      let incomingCommand : ℤ := truncToInt com.longitude
      if incomingCommand = k.META_START_CA_ON_LON then
        { s with current_state := ST_GREEN_CA_ON }
      else if incomingCommand = k.META_STOP_LON then
        { s with current_state := ST_RED }
      else if incomingCommand = k.META_START_CA_OFF_LON then
        { s with current_state := ST_GREEN_CA_OFF }
      else
        s
    else
      { s with goal_wp := com, caGoal := some com }
  else
    s

/-- Response of the getPlaneID service (au_uav_ros::planeIDGetter). -/
structure PlaneIDResponse where
  planeID : ℤ
  initialLatitude : ℚ
  initialLongitude : ℚ
  initialAltitude : ℚ
deriving DecidableEq

/-- Mover::init (mover.cpp lines 106-144), the part after the ROS plumbing:
in test mode the plane id is fixed to 999; otherwise the getPlaneID service
is called (svc = none models a failed call, returning false, embedded as
none).  On success the goal waypoint is seeded field by field exactly as the
source assigns it, line by line (lines 126-131): note line 129 assigns
goal_wp.latitude a second time from initialLatitude and stores
initialLatitude into the member initialAlt; goal_wp.altitude is never
assigned.  Then ca.init(planeID) runs and the state becomes ST_RED. -/
def mover_init (s : MoverState) (t : Bool) (svc : Option PlaneIDResponse) :
    Option MoverState :=
  if t then
    some { s with planeID := 999,
                  caInitID := some 999,
                  current_state := ST_RED,
                  is_testing := t }
  else
    match svc with
    | some r =>
      let pid := r.planeID
      let g1 := { s.goal_wp with planeID := pid }
      let g2 := { g1 with latitude := r.initialLatitude }
      let g3 := { g2 with longitude := r.initialLongitude }
      let g4 := { g3 with latitude := r.initialLatitude }
      let g5 := { g4 with param := 2 }
      let g6 := { g5 with commandID := 2 }
      some { s with planeID := pid,
                    goal_wp := g6,
                    initialLat := r.initialLatitude,
                    initialLong := r.initialLongitude,
                    initialAlt := r.initialLatitude,
                    caInitID := some pid,
                    current_state := ST_RED,
                    is_testing := t }
    | none => none

/-- Mover::goalCommandPublish (mover.cpp lines 193-203): read goal_wp under
its lock and publish it.  The returned option is the message published this
tick (none = nothing published). -/
def goalCommandPublish (s : MoverState) : MoverState × Option Command :=
  (s, some s.goal_wp)

/-- Mover::caCommandPublish (mover.cpp lines 206-222): pop the front of
ca_wp if nonempty and publish it; publish nothing when the queue is empty. -/
def caCommandPublish (s : MoverState) : MoverState × Option Command :=
  let r := popAvoidance s.ca_wp
  ({ s with ca_wp := r.2 }, r.1)

/-- One iteration of the while loop of Mover::move (mover.cpp lines 166-189):
read the current state and dispatch.  ST_RED publishes nothing and touches
nothing; the two green states sleep (a pure delay, not modelled) and call
their publish routine. -/
def moveTick (s : MoverState) : MoverState × Option Command :=
  match s.current_state with
  | ST_RED => (s, none)
  | ST_GREEN_CA_OFF => goalCommandPublish s
  | ST_GREEN_CA_ON => caCommandPublish s

/-- Runs n consecutive iterations of the move loop, collecting the
per-tick publication (none = silent tick). -/
def moveTrace : Nat → MoverState → MoverState × List (Option Command)
  | 0, s => (s, [])
  | n + 1, s =>
    let p := moveTick s
    let q := moveTrace n p.1
    (q.1, p.2 :: q.2)

/-! ## Shared sample values used by witnesses and counterexamples -/

/-- A concrete choice of the sentinel constants, used to instantiate
hypotheses in witnesses. -/
def sampleConsts : SentinelConsts :=
  { INVALID_GPS_COOR := -1000
    EMERGENCY_PROTOCOL_LAT := -2000
    META_START_CA_ON_LON := 4
    META_STOP_LON := 5
    META_START_CA_OFF_LON := 6 }

/-- A concrete command. -/
def sampleCmdA : Command :=
  { planeID := 7, latitude := 1, longitude := 2, altitude := 3,
    param := 0, commandID := 1 }

/-- A second concrete command, distinct from sampleCmdA. -/
def sampleCmdB : Command :=
  { planeID := 7, latitude := 5, longitude := 6, altitude := 7,
    param := 0, commandID := 1 }

/-- A concrete telemetry sample. -/
def sampleTelem : Telemetry :=
  { planeID := 7, latitude := 0, longitude := 0, altitude := 0 }

/-- A concrete starting mover state. -/
def sampleState : MoverState :=
  { planeID := 7
    goal_wp := sampleCmdA
    ca_wp := []
    current_state := ST_RED
    is_testing := false
    initialLat := 0
    initialLong := 0
    initialAlt := 0
    caGoal := none
    caInitID := none }

/-! ## Claims -/

/-- Claim C1: in ST_RED (Halted) mode, every iteration of the move loop
publishes nothing and leaves the state unchanged, for any number of ticks
and for any contents of goal_wp and ca_wp; the tick does not depend on the
shared store at all. -/
theorem halted_mode_publishes_nothing (s : MoverState)
    (h : s.current_state = ST_RED) (n : Nat) :
    moveTrace n s = (s, List.replicate n none) := by
  induction n with
  | zero => simp [moveTrace]
  | succ m ih =>
    simp [moveTrace, moveTick, h, ih, List.replicate]

/-- Witness for C1: three halted ticks on a concrete state with a nonempty
queue and a set goal publish nothing. -/
theorem halted_mode_publishes_nothing_witness :
    moveTrace 3 { sampleState with ca_wp := [sampleCmdB] } =
      ({ sampleState with ca_wp := [sampleCmdB] },
        [none, none, none]) :=
  halted_mode_publishes_nothing
    { sampleState with ca_wp := [sampleCmdB] } rfl 3

/-- Claim C2: in ST_GREEN_CA_ON (AvoidGuided) mode a publish tick pops the
avoidance queue exactly once: an empty queue makes the tick silent with the
state unchanged, a nonempty queue makes the tick emit exactly the front
entry and remove it, and after a single pending entry is emitted the very
next tick (with no intervening push) emits nothing; the tick never falls
back to goal_wp. -/
theorem avoid_guided_tick_pops_once (s : MoverState)
    (h : s.current_state = ST_GREEN_CA_ON) :
    (s.ca_wp = [] → moveTick s = (s, none)) ∧
    (∀ c rest, s.ca_wp = c :: rest →
      moveTick s = ({ s with ca_wp := rest }, some c)) ∧
    (∀ c, s.ca_wp = [c] →
      moveTrace 2 s = ({ s with ca_wp := [] }, [some c, none])) := by
  obtain ⟨pid, g, q, cs, it, la, lo, al, cg, ci⟩ := s
  simp only [MoverState.current_state] at h
  subst h
  refine ⟨?_, ?_, ?_⟩
  · intro he
    simp only [MoverState.ca_wp] at he
    subst he
    simp [moveTick, caCommandPublish, popAvoidance]
  · intro c rest he
    simp only [MoverState.ca_wp] at he
    subst he
    simp [moveTick, caCommandPublish, popAvoidance]
  · intro c he
    simp only [MoverState.ca_wp] at he
    subst he
    simp [moveTrace, moveTick, caCommandPublish, popAvoidance]

/-- Witness for C2: from a concrete state whose queue holds exactly
sampleCmdB, two ticks emit sampleCmdB then nothing. -/
theorem avoid_guided_tick_pops_once_witness :
    moveTrace 2 { sampleState with current_state := ST_GREEN_CA_ON,
                                   ca_wp := [sampleCmdB] } =
      ({ sampleState with current_state := ST_GREEN_CA_ON, ca_wp := [] },
        [some sampleCmdB, none]) :=
  (avoid_guided_tick_pops_once
    { sampleState with current_state := ST_GREEN_CA_ON,
                       ca_wp := [sampleCmdB] } rfl).2.2 sampleCmdB rfl

/-- Claim C3: in ST_GREEN_CA_OFF (DirectGoal) mode every publish tick reads
goal_wp and emits exactly it, unconditionally and without changing the
state: over any number of ticks the trace is the unchanged goal command
repeated, so the emitted value can change only when goal_wp is overwritten
between ticks. -/
theorem direct_goal_tick_emits_goal (s : MoverState)
    (h : s.current_state = ST_GREEN_CA_OFF) (n : Nat) :
    moveTrace n s = (s, List.replicate n (some s.goal_wp)) := by
  induction n with
  | zero => simp [moveTrace]
  | succ m ih =>
    simp [moveTrace, moveTick, h, goalCommandPublish, ih, List.replicate]

/-- Witness for C3: three direct-goal ticks on a concrete state emit the
goal command three times and leave the state unchanged. -/
theorem direct_goal_tick_emits_goal_witness :
    moveTrace 3 { sampleState with current_state := ST_GREEN_CA_OFF } =
      ({ sampleState with current_state := ST_GREEN_CA_OFF },
        [some sampleCmdA, some sampleCmdA, some sampleCmdA]) :=
  direct_goal_tick_emits_goal
    { sampleState with current_state := ST_GREEN_CA_OFF } rfl 3

/-- Claim C4: for a command whose plane id matches this instance and whose
latitude is the emergency/meta sentinel, the gcs callback sets the mode
exactly per the table (start-avoidance code to ST_GREEN_CA_ON, stop code to
ST_RED, start-direct code to ST_GREEN_CA_OFF), from any current mode, and
does nothing else: goal_wp, the avoidance goal and the avoidance queue are
untouched. -/
theorem meta_command_sets_mode_per_table (k : SentinelConsts)
    (s : MoverState) (com : Command) (hd : k.distinctCodes)
    (hid : s.planeID = com.planeID)
    (hlat : com.latitude = k.EMERGENCY_PROTOCOL_LAT) :
    (truncToInt com.longitude = k.META_START_CA_ON_LON →
      gcs_command_callback k s com =
        { s with current_state := ST_GREEN_CA_ON }) ∧
    (truncToInt com.longitude = k.META_STOP_LON →
      gcs_command_callback k s com = { s with current_state := ST_RED }) ∧
    (truncToInt com.longitude = k.META_START_CA_OFF_LON →
      gcs_command_callback k s com =
        { s with current_state := ST_GREEN_CA_OFF }) ∧
    ((gcs_command_callback k s com).goal_wp = s.goal_wp ∧
     (gcs_command_callback k s com).caGoal = s.caGoal ∧
     (gcs_command_callback k s com).ca_wp = s.ca_wp) := by
  obtain ⟨d1, d2, d3⟩ := hd
  unfold gcs_command_callback
  refine ⟨?_, ?_, ?_, ?_⟩
  · intro hc
    simp [hid, hlat, hc]
  · intro hc
    simp [hid, hlat, hc, Ne.symm d1]
  · intro hc
    simp [hid, hlat, hc, Ne.symm d2, Ne.symm d3]
  · simp only [hid, hlat, if_pos rfl]
    split_ifs <;> simp

/-- Witness for C4: a concrete meta stop command moves a concrete state in
ST_GREEN_CA_ON to ST_RED. -/
theorem meta_command_sets_mode_per_table_witness :
    gcs_command_callback sampleConsts
        { sampleState with current_state := ST_GREEN_CA_ON }
        { planeID := 7, latitude := -2000, longitude := 5, altitude := 0,
          param := 0, commandID := 0 } =
      { sampleState with current_state := ST_RED } :=
  (meta_command_sets_mode_per_table sampleConsts
    { sampleState with current_state := ST_GREEN_CA_ON }
    { planeID := 7, latitude := -2000, longitude := 5, altitude := 0,
      param := 0, commandID := 0 }
    (by decide) rfl rfl).2.1 (by decide)

/-- Claim C7: a command whose plane id differs from this instance leaves the
whole mover state (mode, goal_wp, avoidance queue, avoidance goal)
unchanged, with no error. -/
theorem foreign_command_is_noop (k : SentinelConsts) (s : MoverState)
    (com : Command) (hid : s.planeID ≠ com.planeID) :
    gcs_command_callback k s com = s := by
  simp [gcs_command_callback, hid]

/-- Witness for C7: a concrete command for plane 8 leaves a concrete state
of plane 7 unchanged. -/
theorem foreign_command_is_noop_witness :
    gcs_command_callback sampleConsts sampleState
      { sampleCmdB with planeID := 8 } = sampleState :=
  foreign_command_is_noop sampleConsts sampleState
    { sampleCmdB with planeID := 8 } (by decide)

/-- Claim C10: a matching command with the emergency latitude whose
longitude truncates to none of the three recognized meta codes is silently
dropped: the state is unchanged. -/
theorem unrecognized_meta_code_is_noop (k : SentinelConsts) (s : MoverState)
    (com : Command) (hid : s.planeID = com.planeID)
    (hlat : com.latitude = k.EMERGENCY_PROTOCOL_LAT)
    (h1 : truncToInt com.longitude ≠ k.META_START_CA_ON_LON)
    (h2 : truncToInt com.longitude ≠ k.META_STOP_LON)
    (h3 : truncToInt com.longitude ≠ k.META_START_CA_OFF_LON) :
    gcs_command_callback k s com = s := by
  simp [gcs_command_callback, hid, hlat, h1, h2, h3]

/-- Witness for C10: a concrete meta command with unrecognized code 9
leaves a concrete state unchanged. -/
theorem unrecognized_meta_code_is_noop_witness :
    gcs_command_callback sampleConsts sampleState
      { planeID := 7, latitude := -2000, longitude := 9, altitude := 0,
        param := 0, commandID := 0 } = sampleState :=
  unrecognized_meta_code_is_noop sampleConsts sampleState
    { planeID := 7, latitude := -2000, longitude := 9, altitude := 0,
      param := 0, commandID := 0 }
    rfl rfl (by decide) (by decide) (by decide)

/-- Claim C6: pushAvoidance replaces rather than accumulates: from any
starting queue, pushing A then B with no pop in between leaves exactly [B],
and every push leaves the queue with exactly one entry. -/
theorem push_avoidance_replaces (q : List Command) (a b : Command) :
    pushAvoidance (pushAvoidance q a) b = [b] ∧
    (pushAvoidance q a).length = 1 := by
  simp [pushAvoidance, listClear, listPushBack]

/-- Claim C8: if the candidate command of the telemetry callback (the
avoidance result, or goal_wp in test mode) has latitude, longitude and
altitude all equal to the invalid sentinel, the callback is a no-op and the
queue is untouched; any candidate missing the sentinel in at least one of
the three fields is pushed, replacing the queue contents. -/
theorem invalid_sentinel_discarded (k : SentinelConsts)
    (avoid : Telemetry → Command) (s : MoverState) (telem : Telemetry)
    (com : Command)
    (hcom : com = if !s.is_testing then avoid telem else s.goal_wp) :
    (com.latitude = k.INVALID_GPS_COOR ∧ com.longitude = k.INVALID_GPS_COOR ∧
       com.altitude = k.INVALID_GPS_COOR →
      all_telem_callback k avoid s telem = s) ∧
    (¬(com.latitude = k.INVALID_GPS_COOR ∧
       com.longitude = k.INVALID_GPS_COOR ∧
       com.altitude = k.INVALID_GPS_COOR) →
      all_telem_callback k avoid s telem =
        { s with ca_wp := pushAvoidance s.ca_wp com }) := by
  subst hcom
  unfold all_telem_callback
  constructor
  · intro hsent
    rw [if_pos hsent]
  · intro hsent
    rw [if_neg hsent]

/-- A command whose three position fields all carry the invalid sentinel of
sampleConsts. -/
def sampleInvalidCmd : Command :=
  { planeID := 7, latitude := -1000, longitude := -1000, altitude := -1000,
    param := 0, commandID := 0 }

/-- Witness for C8: with a concrete avoidance function returning the
invalid sentinel, the telemetry callback leaves a concrete state
unchanged. -/
theorem invalid_sentinel_discarded_witness :
    all_telem_callback sampleConsts (fun _ => sampleInvalidCmd)
      sampleState sampleTelem = sampleState :=
  (invalid_sentinel_discarded sampleConsts (fun _ => sampleInvalidCmd)
    sampleState sampleTelem sampleInvalidCmd rfl).1 (by decide)

/-- A concrete state in test mode with goal sampleCmdB and the entry
sampleCmdA still pending in the avoidance queue. -/
def samplePendingState : MoverState :=
  { sampleState with
      is_testing := true
      goal_wp := sampleCmdB
      ca_wp := [sampleCmdA] }

/-- Claim C9 counterexample: the telemetry callback does remove a
previously pending queue entry.  In a concrete state whose queue holds
sampleCmdA, one telemetry callback (test mode, goal sampleCmdB) leaves a
queue that no longer contains sampleCmdA. -/
theorem telem_handler_removes_pending_entry :
    sampleCmdA ∈ samplePendingState.ca_wp ∧
    sampleCmdA ∉
      (all_telem_callback sampleConsts (fun _ => sampleCmdB)
        samplePendingState sampleTelem).ca_wp := by
  decide

/-- Claim C9 (amended): entries are consumed (popped for publication) only
by the publish side; the telemetry callback never pops and never empties a
nonempty queue — it either leaves the queue unchanged or replaces its whole
contents with the single fresh candidate, so a pending entry can disappear
only by being replaced. -/
theorem telem_handler_replaces_never_consumes (k : SentinelConsts)
    (avoid : Telemetry → Command) (s : MoverState) (telem : Telemetry) :
    (all_telem_callback k avoid s telem = s ∨
     (all_telem_callback k avoid s telem).ca_wp =
       [if !s.is_testing then avoid telem else s.goal_wp]) ∧
    (s.ca_wp ≠ [] → (all_telem_callback k avoid s telem).ca_wp ≠ []) := by
  simp only [all_telem_callback]
  set com := if !s.is_testing then avoid telem else s.goal_wp with hc
  by_cases hsent : com.latitude = k.INVALID_GPS_COOR ∧
      com.longitude = k.INVALID_GPS_COOR ∧ com.altitude = k.INVALID_GPS_COOR
  · rw [if_pos hsent]
    exact ⟨Or.inl rfl, fun hne => hne⟩
  · rw [if_neg hsent]
    refine ⟨Or.inr ?_, fun hne => ?_⟩
    · simp [pushAvoidance, listClear, listPushBack]
    · simp [pushAvoidance, listClear, listPushBack]

/-- Witness for C9 (amended): on a concrete state with a pending entry the
telemetry callback leaves a nonempty queue. -/
theorem telem_handler_replaces_never_consumes_witness :
    (all_telem_callback sampleConsts (fun _ => sampleCmdB)
      samplePendingState sampleTelem).ca_wp ≠ [] :=
  (telem_handler_replaces_never_consumes sampleConsts (fun _ => sampleCmdB)
    samplePendingState sampleTelem).2 (by decide)

/-- The concrete getPlaneID service response exhibiting the bootstrap
altitude-seeding defect: its altitude 100 differs from its latitude 1. -/
def sampleSvcResponse : PlaneIDResponse :=
  { planeID := 7, initialLatitude := 1, initialLongitude := 2,
    initialAltitude := 100 }

/-- Claim C5 (code defect, evaluated at the failing input): on a successful
service call returning latitude 1, longitude 2, altitude 100, init seeds
goal_wp latitude and longitude from the service and tags it with param 2,
commandID 2 and the plane id, sets the mode to ST_RED and initializes the
avoidance module with the id — but goal_wp.altitude keeps its prior value 3
instead of the service altitude 100, and the member initialAlt receives the
service latitude 1 (mover.cpp line 129 assigns latitude into the altitude
seed). -/
theorem bootstrap_altitude_seed_defect :
    (mover_init sampleState false (some sampleSvcResponse)).map
        (fun s => (s.goal_wp, s.initialAlt, s.current_state, s.caInitID,
                   s.planeID)) =
      some ({ planeID := 7, latitude := 1, longitude := 2, altitude := 3,
              param := 2, commandID := 2 }, 1, ST_RED, some 7, 7) ∧
    sampleSvcResponse.initialAltitude = 100 ∧
    sampleState.goal_wp.altitude = 3 := by
  decide
